import Mathlib

/-!
# Verification of the ERAIF orchestration core

Shallow embedding of the ERAIF repository's orchestration core:

* `src/src/ai/pipeline.py`        — the AI/ML pipeline graph (`AIMLPipeline`)
* `src/src/ai/workflows.py`       — the named emergency workflows (`EmergencyWorkflow`)
* `src/src/core/emergency_system.py` — the `EmergencySystem` facade

Conventions of the embedding:

* Python dicts that are read with `.get(key, default)` become structures whose
  fields are `Option`-typed (a missing key is `none`) or carry the source's
  default directly; each definition's doc comment names the Python symbol it
  embeds.
* Python floats become `ℚ`; wall-clock timestamps become abstract `Nat` ticks.
* External providers (LLM agents, imaging models) are injected as an
  `AgentEnv` of `Except`-valued functions: `.error e` models the provider
  raising an exception with message `e`.
* Fields that are only ever written and never influence control flow or any
  claim (log messages, `metadata` payloads, timestamps inside timeline
  events, uuid identifiers) are elided; every elision is noted at the
  definition it concerns.
* LangGraph's compiled-graph execution is modelled by `runGraph`, a
  fuel-bounded traversal; the fuel `25` models LangGraph's default
  `recursion_limit` of 25 super-steps, and running out of fuel models
  `GraphRecursionError`.
-/

namespace ERAIF

/-! ## Shared basic types -/

/-- An imaging study (opaque payload; only its presence drives control flow in
`_imaging_analysis_node`). -/
def ImagingStudy : Type := String

/-- A single critical finding as produced by the imaging provider
(`result.get("critical_findings", [])` entries in
`EmergencySystem._extract_critical_findings`).  The dict keys `type`,
`description`, `confidence`, `severity` are read with `.get`, hence
`Option`-typed. -/
structure RawFinding where
  ftype : Option String := none
  description : Option String := none
  confidence : Option ℚ := none
  severity : Option String := none
deriving DecidableEq

/-- Result of `ImagingAnalysisAgent.analyze_study` for one study, to the
extent the core reads it. -/
structure StudyResult where
  critical_findings : List RawFinding := []
  confidence : Option ℚ := none
deriving DecidableEq

/-- `TriageAgent.analyze_emergency` output, as read by the core
(`priority`, `confidence`, `red_flags`, each via `.get`).  The empty dict
(`PipelineState.triage_results` default, and `ai_results.get("triage_results",
{})` in the facade) is the all-default record. -/
structure TriageResults where
  priority : Option String := none
  confidence : Option ℚ := none
  red_flags : List String := []
deriving DecidableEq

/-- The `imaging_results` dict built by `_imaging_analysis_node`; the empty
dict default is the all-default record. -/
structure ImagingResults where
  studies_analyzed : Nat := 0
  results : List StudyResult := []
  summary : Option String := none
deriving DecidableEq

/-- One clinical recommendation (read only via `.get` in
`_generate_next_actions`, which is a write-only summary payload). -/
structure Recommendation where
  recommendation : Option String := none
  priority : Option Nat := none
  timeframe : Option String := none
deriving DecidableEq

/-- The case-data dict handed to `process_emergency_case` and threaded to the
pipeline as `emergency_data`.  Only the keys the core actually reads are
modelled: `raw_text` (intake), `imaging_studies` (imaging node),
`incident_type`, `concurrent_priority_cases`, `requires_transfer`,
`facility_capacity.occupancy_percent` (workflow selection) and `priority`
(workflow initial data).  Keys read with a default carry that default. -/
structure CaseData where
  raw_text : Option String := none
  imaging_studies : List ImagingStudy := []
  incident_type : Option String := none
  concurrent_priority_cases : Nat := 0
  requires_transfer : Bool := false
  facility_capacity_occupancy : Option ℚ := none
  priority : Option String := none

/-! ## `src/src/ai/pipeline.py` -/

/-- `PipelineState` (pipeline.py:31-56).  `messages` and `metadata` are
write-only in the source (log strings and payload maps never read by any
router or node decision) and are elided; `session_id` is a uuid modelled as
an opaque string. -/
structure PipelineState where
  session_id : String := ""
  current_step : String := "initial"
  emergency_data : CaseData := {}
  imaging_results : ImagingResults := {}
  triage_results : TriageResults := {}
  ai_recommendations : List Recommendation := []
  workflow_status : String := "pending"

/-- The injected external providers consumed by the pipeline nodes.  Each
field models one provider method; `.error e` models the call raising an
exception with message `e`.  `extract_emergency_data` models
`EmergencyAIAgent.extract_emergency_data` composed with the
`state.emergency_data.update(extracted_data)` dict merge. -/
structure AgentEnv where
  extract_emergency_data : CaseData → Except String CaseData := fun cd => .ok cd
  analyze_emergency : CaseData → Except String TriageResults := fun _ => .ok {}
  analyze_study : ImagingStudy → Except String StudyResult := fun _ => .ok {}
  summarize_imaging : List StudyResult → Except String String := fun _ => .ok ""
  generate_clinical_recommendations :
      CaseData → TriageResults → ImagingResults → Except String (List Recommendation) :=
    fun _ _ _ => .ok []
  create_coordination_plan :
      CaseData → TriageResults → ImagingResults → List Recommendation → Except String String :=
    fun _ _ _ _ => .ok ""

/-- `AIMLPipeline._intake_node` (pipeline.py:134-158): when `raw_text` is
present the extraction provider is called and its result merged into
`emergency_data`; metadata scores and the log message are elided. -/
def intakeNode (env : AgentEnv) (s : PipelineState) : Except String PipelineState :=
  match s.emergency_data.raw_text with
  | some _ =>
    match env.extract_emergency_data s.emergency_data with
    | .error e => .error e
    | .ok cd => .ok { s with emergency_data := cd, current_step := "intake_complete" }
  | none => .ok { s with current_step := "intake_complete" }

/-- `AIMLPipeline._triage_node` (pipeline.py:160-180). -/
def triageNode (env : AgentEnv) (s : PipelineState) : Except String PipelineState :=
  match env.analyze_emergency s.emergency_data with
  | .error e => .error e
  | .ok tr => .ok { s with triage_results := tr, current_step := "triage_complete" }

/-- `AIMLPipeline._imaging_analysis_node` (pipeline.py:182-213): analyzes each
study in order (the Python `for` loop is `List.mapM`), then asks the LLM for a
summary; with no studies, no provider is called. -/
def imagingAnalysisNode (env : AgentEnv) (s : PipelineState) : Except String PipelineState :=
  let studies := s.emergency_data.imaging_studies
  if studies.isEmpty then
    .ok { s with
          imaging_results :=
            { studies_analyzed := 0, results := [],
              summary := some "No imaging studies available for analysis" },
          current_step := "imaging_analysis_complete" }
  else
    match studies.mapM env.analyze_study with
    | .error e => .error e
    | .ok results =>
      match env.summarize_imaging results with
      | .error e => .error e
      | .ok summ =>
        .ok { s with
              imaging_results :=
                { studies_analyzed := studies.length, results := results,
                  summary := some summ },
              current_step := "imaging_analysis_complete" }

/-- `AIMLPipeline._clinical_decision_node` (pipeline.py:215-233). -/
def clinicalDecisionNode (env : AgentEnv) (s : PipelineState) : Except String PipelineState :=
  match env.generate_clinical_recommendations s.emergency_data s.triage_results
      s.imaging_results with
  | .error e => .error e
  | .ok recs => .ok { s with ai_recommendations := recs, current_step := "clinical_decision_complete" }

/-- `AIMLPipeline._resource_optimization_node` (pipeline.py:235-253).  Its
`workflow.optimize_resources` call catches every exception internally and its
result is stored only in `metadata` (elided), so the node itself never
fails. -/
def resourceOptimizationNode (s : PipelineState) : PipelineState :=
  { s with current_step := "resource_optimization_complete" }

/-- `AIMLPipeline._emergency_coordination_node` (pipeline.py:255-275): the
coordination plan goes to `metadata` (elided); sets the terminal
`workflow_status = "completed"`. -/
def emergencyCoordinationNode (env : AgentEnv) (s : PipelineState) :
    Except String PipelineState :=
  match env.create_coordination_plan s.emergency_data s.triage_results s.imaging_results
      s.ai_recommendations with
  | .error e => .error e
  | .ok _plan =>
    .ok { s with current_step := "emergency_coordination_complete",
                 workflow_status := "completed" }

/-- `AIMLPipeline._monitoring_node` (pipeline.py:277-296): pure; the
monitoring config goes to `metadata` (elided); sets
`workflow_status = "monitoring"`. -/
def monitoringNode (s : PipelineState) : PipelineState :=
  { s with current_step := "monitoring_active", workflow_status := "monitoring" }

/-- `AIMLPipeline._triage_router` (pipeline.py:298-309), verbatim including
the `.get("priority", "routine")` default for a missing key. -/
def triageRouter (s : PipelineState) : String :=
  let priority := s.triage_results.priority.getD "routine"
  if priority ∈ (["critical", "life_threatening"] : List String) then "critical"
  else if priority ∈ (["urgent", "high"] : List String) then "urgent"
  else if priority ∈ (["routine", "normal"] : List String) then "routine"
  else "monitoring"

/-- The label→node map of the conditional edge out of `triage`
(`_build_graph`, pipeline.py:115-124). -/
def pipelineTriageEdges : List (String × String) :=
  [("critical", "imaging_analysis"), ("urgent", "imaging_analysis"),
   ("routine", "clinical_decision"), ("monitoring", "monitoring")]

/-- The unconditional chain `resource_optimization → emergency_coordination →
END` (pipeline.py:128-129). -/
def runFromResource (env : AgentEnv) (s : PipelineState) : Except String PipelineState :=
  emergencyCoordinationNode env (resourceOptimizationNode s)

/-- The chain from `clinical_decision` (pipeline.py:127-129). -/
def runFromClinical (env : AgentEnv) (s : PipelineState) : Except String PipelineState :=
  match clinicalDecisionNode env s with
  | .error e => .error e
  | .ok s1 => runFromResource env s1

/-- The chain from `imaging_analysis` (pipeline.py:126-129). -/
def runFromImaging (env : AgentEnv) (s : PipelineState) : Except String PipelineState :=
  match imagingAnalysisNode env s with
  | .error e => .error e
  | .ok s1 => runFromClinical env s1

/-- Traversal of the compiled pipeline graph from the `intake` entry point to
`END` (`_build_graph` + `graph.ainvoke`): `intake → triage`, then the
conditional edge resolved by looking `triageRouter`'s label up in
`pipelineTriageEdges` (an unmapped label would be a LangGraph runtime
error). -/
def pipelineInvoke (env : AgentEnv) (s0 : PipelineState) : Except String PipelineState :=
  match intakeNode env s0 with
  | .error e => .error e
  | .ok s1 =>
    match triageNode env s1 with
    | .error e => .error e
    | .ok s2 =>
      match List.lookup (triageRouter s2) pipelineTriageEdges with
      | some "imaging_analysis" => runFromImaging env s2
      | some "clinical_decision" => runFromClinical env s2
      | some "monitoring" => .ok (monitoringNode s2)
      | some other => .error ("unknown node: " ++ other)
      | none => .error ("unmapped router label: " ++ triageRouter s2)

/-- The dict returned by `AIMLPipeline.process_emergency`
(pipeline.py:358-400): either the final state's fields with
`status = workflow_status`, or — when any node raised — the
`{"status": "error", "error": str(e), "session_id": ...}` dict.
`metadata`/`processing_steps` are elided (write-only payloads). -/
structure AiResults where
  session_id : String := ""
  status : String
  error : Option String := none
  triage_results : TriageResults := {}
  imaging_results : ImagingResults := {}
  recommendations : List Recommendation := []

/-- `AIMLPipeline.process_emergency` (pipeline.py:358-400).  The uuid
`session_id` is modelled as `""`. -/
def processEmergency (env : AgentEnv) (cd : CaseData) : AiResults :=
  match pipelineInvoke env { emergency_data := cd } with
  | .ok f =>
    { session_id := f.session_id, status := f.workflow_status,
      triage_results := f.triage_results, imaging_results := f.imaging_results,
      recommendations := f.ai_recommendations }
  | .error e => { session_id := "", status := "error", error := some e }

/-! ## `src/src/ai/workflows.py` -/

/-- One entry of `WorkflowState.timeline` as appended by
`add_timeline_event` (workflows.py:41-50).  The `timestamp`, free-text
`description` and `data` payload are write-only and elided; `step` records
`current_step` at append time, as in the source. -/
structure TimelineEvent where
  event_type : String
  step : String
deriving DecidableEq

/-- The `metadata["monitoring"]` dict written by `_monitor_incident_node`
(workflows.py:331-339).  `patients_processed` and `resources_utilized` are
payload-only (never read by any router) and elided. -/
structure MonitoringData where
  incident_duration_minutes : Nat
  status : String
deriving DecidableEq

/-- `WorkflowState` (workflows.py:26-73), parametric in the opaque
`patient_data` payload `α`.  `workflow_id` (uuid), `resource_allocation`,
`decisions`, `alerts` and the rest of `metadata` are data payloads never read
by any router or edge decision and are elided; `metadata["monitoring"]` is
kept because `_monitoring_router` reads it. -/
structure WfState (α : Type) where
  workflow_type : String := "general"
  current_step : String := "initial"
  status : String := "active"
  priority : String := "medium"
  patient_data : α
  timeline : List TimelineEvent := []
  monitoring : Option MonitoringData := none

/-- `WorkflowState.add_timeline_event` (workflows.py:41-50): appends one
event recording the current step. -/
def addTimelineEvent {α : Type} (s : WfState α) (event_type : String) : WfState α :=
  { s with timeline := s.timeline ++ [{ event_type := event_type, step := s.current_step }] }

/-- `_assess_incident_node` (workflows.py:225-250): the computed resource
needs go to `resource_allocation` (elided payload); appends one timeline
event, then advances the step. -/
def assessIncidentNode {α : Type} (s : WfState α) : WfState α :=
  { addTimelineEvent s "assessment_complete" with current_step := "incident_assessment_complete" }

/-- `_mobilize_resources_node` (workflows.py:252-274). -/
def mobilizeResourcesNode {α : Type} (s : WfState α) : WfState α :=
  { addTimelineEvent s "resources_mobilized" with current_step := "resource_mobilization_complete" }

/-- `_coordinate_triage_node` (workflows.py:276-296). -/
def coordinateTriageNode {α : Type} (s : WfState α) : WfState α :=
  { addTimelineEvent s "triage_coordinated" with current_step := "triage_coordination_complete" }

/-- `_distribute_patients_node` (workflows.py:298-322). -/
def distributePatientsNode {α : Type} (s : WfState α) : WfState α :=
  { addTimelineEvent s "patients_distributed" with current_step := "patient_distribution_complete" }

/-- `_monitor_incident_node` (workflows.py:324-349): simulated incident
duration is `len(timeline) * 15` minutes, computed before the node appends
its own event; status is `"ongoing"` below 240 minutes and `"winding_down"`
from 240 on; the result is stored in `metadata["monitoring"]`. -/
def monitorIncidentNode {α : Type} (s : WfState α) : WfState α :=
  let incident_duration := s.timeline.length * 15
  let md : MonitoringData :=
    { incident_duration_minutes := incident_duration,
      status := if incident_duration < 240 then "ongoing" else "winding_down" }
  { addTimelineEvent { s with monitoring := some md } "incident_monitored" with
    current_step := "ongoing_monitoring" }

/-- `_resolve_incident_node` (workflows.py:351-373): resolution summary goes
to `metadata` (elided); sets `status = "resolved"`. -/
def resolveIncidentNode {α : Type} (s : WfState α) : WfState α :=
  { addTimelineEvent { s with status := "resolved" } "incident_resolved" with
    current_step := "incident_resolved" }

/-- `_monitoring_router` (workflows.py:483-493):
`metadata.get("monitoring", {}).get("status", "ongoing")`. -/
def monitoringRouter {α : Type} (s : WfState α) : String :=
  let status := (s.monitoring.map (·.status)).getD "ongoing"
  if status = "winding_down" then "resolve"
  else if status = "escalating" then "escalate"
  else "continue"

/-- Disaster-response nodes (workflows.py:377-411), each appending one
timeline event and advancing the step. -/
def assessDisasterNode {α : Type} (s : WfState α) : WfState α :=
  { addTimelineEvent s "disaster_assessed" with current_step := "disaster_assessment_complete" }

/-- `_activate_emergency_node` (workflows.py:383-387). -/
def activateEmergencyNode {α : Type} (s : WfState α) : WfState α :=
  { addTimelineEvent s "emergency_activated" with current_step := "emergency_activation_complete" }

/-- `_coordinate_facilities_node` (workflows.py:389-393). -/
def coordinateFacilitiesNode {α : Type} (s : WfState α) : WfState α :=
  { addTimelineEvent s "facilities_coordinated" with current_step := "facility_coordination_complete" }

/-- `_redistribute_resources_node` (workflows.py:395-399). -/
def redistributeResourcesNode {α : Type} (s : WfState α) : WfState α :=
  { addTimelineEvent s "resources_redistributed" with
    current_step := "resource_redistribution_complete" }

/-- `_manage_communications_node` (workflows.py:401-405). -/
def manageCommunicationsNode {α : Type} (s : WfState α) : WfState α :=
  { addTimelineEvent s "communications_managed" with
    current_step := "communication_management_complete" }

/-- `_plan_recovery_node` (workflows.py:407-411). -/
def planRecoveryNode {α : Type} (s : WfState α) : WfState α :=
  { addTimelineEvent s "recovery_planned" with current_step := "recovery_planning_complete" }

/-- `_analyze_demand_node` (workflows.py:415-418). -/
def analyzeDemandNode {α : Type} (s : WfState α) : WfState α :=
  { addTimelineEvent s "demand_analyzed" with current_step := "demand_analysis_complete" }

/-- `_assess_capacity_node` (workflows.py:420-423). -/
def assessCapacityNode {α : Type} (s : WfState α) : WfState α :=
  { addTimelineEvent s "capacity_assessed" with current_step := "capacity_assessment_complete" }

/-- `_plan_optimization_node` (workflows.py:425-428). -/
def planOptimizationNode {α : Type} (s : WfState α) : WfState α :=
  { addTimelineEvent s "optimization_planned" with current_step := "optimization_planning_complete" }

/-- `_allocate_resources_node` (workflows.py:430-433). -/
def allocateResourcesNode {α : Type} (s : WfState α) : WfState α :=
  { addTimelineEvent s "resources_allocated" with current_step := "resource_allocation_complete" }

/-- `_monitor_performance_node` (workflows.py:435-438). -/
def monitorPerformanceNode {α : Type} (s : WfState α) : WfState α :=
  { addTimelineEvent s "performance_monitored" with
    current_step := "performance_monitoring_complete" }

/-- Patient-transfer and surge-capacity nodes (workflows.py:441-479), which
only advance `current_step` (no timeline events in the source). -/
def stepOnlyNode {α : Type} (step : String) (s : WfState α) : WfState α :=
  { s with current_step := step }

/-- Target of an edge: either a named node or the `END` sentinel. -/
inductive NodeTarget where
  | node (name : String)
  | terminal
deriving DecidableEq

/-- Fuel-bounded traversal of a compiled LangGraph: execute the handler of
the current node, then follow `next`.  Fuel exhaustion models
`GraphRecursionError` (default `recursion_limit` of 25 super-steps); a `none`
edge models an unmapped router label (a runtime error).  Both surface as the
`.error` the caller's `try/except` turns into an error dict. -/
def runGraph {S : Type} (handler : String → S → S) (next : String → S → Option NodeTarget) :
    Nat → String → S → Except String S
  | 0, _, _ => .error "GraphRecursionError: recursion limit of 25 reached"
  | Nat.succ fuel, n, s =>
    let s1 := handler n s
    match next n s1 with
    | none => .error ("unmapped edge from node: " ++ n)
    | some NodeTarget.terminal => .ok s1
    | some (NodeTarget.node m) => runGraph handler next fuel m s1

/-- Node handlers of the mass-casualty graph
(`_build_mass_casualty_workflow`, workflows.py:104-135). -/
def massCasualtyHandler {α : Type} (n : String) (s : WfState α) : WfState α :=
  match n with
  | "incident_assessment" => assessIncidentNode s
  | "resource_mobilization" => mobilizeResourcesNode s
  | "triage_coordination" => coordinateTriageNode s
  | "patient_distribution" => distributePatientsNode s
  | "ongoing_monitoring" => monitorIncidentNode s
  | "incident_resolution" => resolveIncidentNode s
  | _ => s

/-- Edges of the mass-casualty graph (workflows.py:117-133): a linear chain
into `ongoing_monitoring`, whose conditional edge maps `continue` back to
itself, `resolve` to `incident_resolution` and `escalate` back to
`resource_mobilization`. -/
def massCasualtyNext {α : Type} (n : String) (s : WfState α) : Option NodeTarget :=
  match n with
  | "incident_assessment" => some (.node "resource_mobilization")
  | "resource_mobilization" => some (.node "triage_coordination")
  | "triage_coordination" => some (.node "patient_distribution")
  | "patient_distribution" => some (.node "ongoing_monitoring")
  | "ongoing_monitoring" =>
    List.lookup (monitoringRouter s)
      [("continue", NodeTarget.node "ongoing_monitoring"),
       ("resolve", NodeTarget.node "incident_resolution"),
       ("escalate", NodeTarget.node "resource_mobilization")]
  | "incident_resolution" => some NodeTarget.terminal
  | _ => none

/-- Node handlers of the disaster-response graph
(`_build_disaster_response_workflow`, workflows.py:137-158). -/
def disasterHandler {α : Type} (n : String) (s : WfState α) : WfState α :=
  match n with
  | "disaster_assessment" => assessDisasterNode s
  | "emergency_activation" => activateEmergencyNode s
  | "facility_coordination" => coordinateFacilitiesNode s
  | "resource_redistribution" => redistributeResourcesNode s
  | "communication_management" => manageCommunicationsNode s
  | "recovery_planning" => planRecoveryNode s
  | _ => s

/-- Edges of the disaster-response graph (a linear chain). -/
def disasterNext {α : Type} (n : String) (_s : WfState α) : Option NodeTarget :=
  match n with
  | "disaster_assessment" => some (.node "emergency_activation")
  | "emergency_activation" => some (.node "facility_coordination")
  | "facility_coordination" => some (.node "resource_redistribution")
  | "resource_redistribution" => some (.node "communication_management")
  | "communication_management" => some (.node "recovery_planning")
  | "recovery_planning" => some NodeTarget.terminal
  | _ => none

/-- Node handlers of the resource-optimization graph
(`_build_resource_optimization_workflow`, workflows.py:160-179). -/
def resourceOptHandler {α : Type} (n : String) (s : WfState α) : WfState α :=
  match n with
  | "demand_analysis" => analyzeDemandNode s
  | "capacity_assessment" => assessCapacityNode s
  | "optimization_planning" => planOptimizationNode s
  | "resource_allocation" => allocateResourcesNode s
  | "performance_monitoring" => monitorPerformanceNode s
  | _ => s

/-- Edges of the resource-optimization graph (a linear chain). -/
def resourceOptNext {α : Type} (n : String) (_s : WfState α) : Option NodeTarget :=
  match n with
  | "demand_analysis" => some (.node "capacity_assessment")
  | "capacity_assessment" => some (.node "optimization_planning")
  | "optimization_planning" => some (.node "resource_allocation")
  | "resource_allocation" => some (.node "performance_monitoring")
  | "performance_monitoring" => some NodeTarget.terminal
  | _ => none

/-- Node handlers of the patient-transfer graph
(`_build_patient_transfer_workflow`, workflows.py:181-200). -/
def transferHandler {α : Type} (n : String) (s : WfState α) : WfState α :=
  match n with
  | "transfer_assessment" => stepOnlyNode "transfer_assessment_complete" s
  | "destination_selection" => stepOnlyNode "destination_selection_complete" s
  | "transport_coordination" => stepOnlyNode "transport_coordination_complete" s
  | "transfer_execution" => stepOnlyNode "transfer_execution_complete" s
  | "transfer_monitoring" => stepOnlyNode "transfer_monitoring_complete" s
  | _ => s

/-- Edges of the patient-transfer graph (a linear chain). -/
def transferNext {α : Type} (n : String) (_s : WfState α) : Option NodeTarget :=
  match n with
  | "transfer_assessment" => some (.node "destination_selection")
  | "destination_selection" => some (.node "transport_coordination")
  | "transport_coordination" => some (.node "transfer_execution")
  | "transfer_execution" => some (.node "transfer_monitoring")
  | "transfer_monitoring" => some NodeTarget.terminal
  | _ => none

/-- Node handlers of the surge-capacity graph
(`_build_surge_capacity_workflow`, workflows.py:202-221). -/
def surgeHandler {α : Type} (n : String) (s : WfState α) : WfState α :=
  match n with
  | "surge_detection" => stepOnlyNode "surge_detection_complete" s
  | "capacity_expansion" => stepOnlyNode "capacity_expansion_complete" s
  | "staff_mobilization" => stepOnlyNode "staff_mobilization_complete" s
  | "overflow_management" => stepOnlyNode "overflow_management_complete" s
  | "surge_monitoring" => stepOnlyNode "surge_monitoring_complete" s
  | _ => s

/-- Edges of the surge-capacity graph (a linear chain). -/
def surgeNext {α : Type} (n : String) (_s : WfState α) : Option NodeTarget :=
  match n with
  | "surge_detection" => some (.node "capacity_expansion")
  | "capacity_expansion" => some (.node "staff_mobilization")
  | "staff_mobilization" => some (.node "overflow_management")
  | "overflow_management" => some (.node "surge_monitoring")
  | "surge_monitoring" => some NodeTarget.terminal
  | _ => none

/-- The keys of the `self.workflows` registry built in
`EmergencyWorkflow.__init__` (workflows.py:94-100), in source order. -/
def workflowNames : List String :=
  ["mass_casualty", "disaster_response", "resource_optimization",
   "patient_transfer", "surge_capacity"]

/-- Dispatch of `self.workflows[workflow_type].ainvoke(initial_state)` on the
registry keys; each graph runs from its entry point with LangGraph's default
recursion limit. -/
def runWorkflowGraph {α : Type} (wt : String) (s0 : WfState α) : Except String (WfState α) :=
  match wt with
  | "mass_casualty" => runGraph massCasualtyHandler massCasualtyNext 25 "incident_assessment" s0
  | "disaster_response" => runGraph disasterHandler disasterNext 25 "disaster_assessment" s0
  | "resource_optimization" =>
    runGraph resourceOptHandler resourceOptNext 25 "demand_analysis" s0
  | "patient_transfer" => runGraph transferHandler transferNext 25 "transfer_assessment" s0
  | "surge_capacity" => runGraph surgeHandler surgeNext 25 "surge_detection" s0
  | _ => .error ("no graph registered for: " ++ wt)

/-- The success dict returned by `execute_workflow` (workflows.py:587-595),
to the extent its fields are payload-independent: `workflow_id` (uuid),
`decisions`, `alerts`, `resource_allocation` and the rest of `metadata` are
elided; `monitoring` is the `metadata["monitoring"]` entry. -/
structure WfSummary where
  status : String
  timeline : List TimelineEvent
  monitoring : Option MonitoringData
deriving DecidableEq

/-- Outcome of `EmergencyWorkflow.execute_workflow`: either the success dict
or the `{"error": str(e), "workflow_type": workflow_type}` dict produced by
its `except` clause. -/
inductive WorkflowExecResult where
  | ok (summary : WfSummary)
  | err (msg : String) (workflow_type : String)
deriving DecidableEq

/-- `EmergencyWorkflow.execute_workflow` (workflows.py:566-602).
`dataPriority` models `initial_data.get("priority", "medium")`; an unknown
`workflow_type` raises `ValueError("Unknown workflow type: ...")`, caught by
the same function's `except` into an error dict. -/
def executeWorkflow {α : Type} (workflow_type : String) (initial_data : α)
    (dataPriority : Option String) : WorkflowExecResult :=
  if workflow_type ∈ workflowNames then
    let s0 : WfState α :=
      { workflow_type := workflow_type, patient_data := initial_data,
        priority := dataPriority.getD "medium" }
    match runWorkflowGraph workflow_type s0 with
    | .ok f => .ok { status := f.status, timeline := f.timeline, monitoring := f.monitoring }
    | .error e => .err e workflow_type
  else
    .err ("Unknown workflow type: " ++ workflow_type) workflow_type

/-- The `workflow_results.get("timeline", [])` read used by the facade: `[]`
when `execute_workflow` returned its error dict. -/
def WorkflowExecResult.timeline : WorkflowExecResult → List TimelineEvent
  | .ok s => s.timeline
  | .err _ _ => []

/-- Whether `execute_workflow` took its unknown-workflow-type error branch. -/
def WorkflowExecResult.isUnknownType : WorkflowExecResult → Bool
  | .err m wt => m = "Unknown workflow type: " ++ wt
  | .ok _ => false

/-- Whether `execute_workflow` returned its success dict. -/
def WorkflowExecResult.isOk : WorkflowExecResult → Bool
  | .ok _ => true
  | .err _ _ => false

/-! ## `src/src/core/emergency_system.py` -/

/-- The mutable state of `EmergencySystem` (emergency_system.py:36-63):
emergency-mode flags and the `system_metrics` counters.  `active_cases` (a
per-case bookkeeping dict), `uptime_start` and the component handles are
payloads irrelevant to every claim and are elided.  Timestamps are abstract
`Nat` ticks. -/
structure SystemState where
  emergency_mode_active : Bool := false
  emergency_mode_reason : Option String := none
  emergency_mode_activated_at : Option Nat := none
  cases_processed : Nat := 0
  ai_analyses_completed : Nat := 0
  workflows_executed : Nat := 0
  alerts_generated : Nat := 0
deriving DecidableEq

/-- A critical finding extracted by `_extract_critical_findings`
(emergency_system.py:535-562). -/
structure Finding where
  source : String
  ftype : Option String
  description : String
  confidence : ℚ
  severity : String
deriving DecidableEq

/-- `EmergencySystem._extract_critical_findings` (emergency_system.py:535-562):
imaging criticals first (with `.get` defaults), then triage red flags (each
with the triage confidence and severity `"high"`). -/
def extractCriticalFindings (ai : AiResults) : List Finding :=
  (ai.imaging_results.results.flatMap fun r =>
    r.critical_findings.map fun f =>
      { source := "imaging_analysis", ftype := f.ftype,
        description := f.description.getD "", confidence := f.confidence.getD 0,
        severity := f.severity.getD "unknown" })
  ++ ai.triage_results.red_flags.map fun flag =>
      { source := "triage_analysis", ftype := some "red_flag", description := flag,
        confidence := ai.triage_results.confidence.getD 0, severity := "high" }

/-- `EmergencySystem._generate_critical_alert` (emergency_system.py:449-466):
logs the alert (elided) and increments the `alerts_generated` counter by
one. -/
def generateCriticalAlert (sys : SystemState) (_finding : Finding) : SystemState :=
  { sys with alerts_generated := sys.alerts_generated + 1 }

/-- `EmergencySystem._check_critical_findings` (emergency_system.py:439-447):
for each finding whose confidence is at least `config.ai.auto_alert_threshold`
one alert is generated; the loop is a fold over the findings list. -/
def checkCriticalFindings (threshold : ℚ) (findings : List Finding)
    (sys : SystemState) : SystemState :=
  findings.foldl
    (fun acc f => if threshold ≤ f.confidence then generateCriticalAlert acc f else acc)
    sys

/-- The default of `AIConfig.auto_alert_threshold` (config.py:107). -/
def defaultAutoAlertThreshold : ℚ := 9/10

/-- The emergency config dict built by
`EmergencySystem._configure_emergency_mode` (emergency_system.py:468-481).
The source stores boolean `batch_processing`/`timeout_reduced` flags, not
numeric batch sizes or timeouts. -/
structure EmergencyConfig where
  priority_threshold : String
  batch_processing : Bool
  compression_enabled : Bool
  timeout_reduced : Bool
  ai_confidence_threshold : ℚ
deriving DecidableEq

/-- `EmergencySystem._configure_emergency_mode` (emergency_system.py:468-481),
verbatim. -/
def configureEmergencyMode (severity : String) : EmergencyConfig :=
  { priority_threshold :=
      if severity ∈ (["high", "critical"] : List String) then "HIGH" else "MEDIUM",
    batch_processing := true,
    compression_enabled := true,
    timeout_reduced := true,
    ai_confidence_threshold := if severity = "critical" then 6/10 else 7/10 }

/-- `EmergencySystem._determine_workflow_type` (emergency_system.py:364-396).
The source's rule 3 is a nested `if` (priority check, then count check) that
falls through to the remaining rules when either test fails; it is flattened
here into the conjunction.  `ai_results.get("triage_results", {})` is the
all-default `TriageResults` when the pipeline returned its error dict. -/
def determineWorkflowType (cd : CaseData) (ai : AiResults)
    (emergency_mode_active : Bool) : String :=
  if cd.incident_type = some "mass_casualty" then "mass_casualty"
  else if emergency_mode_active then "disaster_response"
  else if ai.triage_results.priority ∈ ([some "critical", some "high"] : List (Option String))
      ∧ cd.concurrent_priority_cases > 5 then "resource_optimization"
  else if cd.requires_transfer then "patient_transfer"
  else if cd.facility_capacity_occupancy.getD 0 > 85 then "surge_capacity"
  else "resource_optimization"

/-- The `{**case_data, "ai_results": ai_results}` dict the facade passes to
`execute_workflow` (emergency_system.py:100-103). -/
structure FacadeWorkflowData where
  case_data : CaseData
  ai_results : AiResults

/-- The case summary built by `EmergencySystem._generate_case_summary`
(emergency_system.py:398-437).  `processing_time_seconds`, `timestamp`,
`patient_info`, `confidence_scores`, `next_actions` and `system_load` are
payload fields derived from the same inputs and are elided; note the `status`
field is the literal `"completed"` in the source. -/
structure CaseSummary where
  status : String
  triage_results : TriageResults
  imaging_results : ImagingResults
  recommendations : List Recommendation
  workflow_timeline : List TimelineEvent
  critical_findings : List Finding
  emergency_mode_active : Bool

/-- `EmergencySystem._generate_case_summary` (emergency_system.py:398-437):
unconditionally reports `status = "completed"`. -/
def generateCaseSummary (ai : AiResults) (wf : WorkflowExecResult)
    (sys : SystemState) : CaseSummary :=
  { status := "completed",
    triage_results := ai.triage_results,
    imaging_results := ai.imaging_results,
    recommendations := ai.recommendations,
    workflow_timeline := wf.timeline,
    critical_findings := extractCriticalFindings ai,
    emergency_mode_active := sys.emergency_mode_active }

/-- `EmergencySystem.process_emergency_case` (emergency_system.py:65-138).
In the embedding nothing inside the `try` body can raise — the AI pipeline
and `execute_workflow` each catch their own exceptions and return error
dicts — so the facade's `except` branch (which would return a
`{"status": "error", ...}` dict) is not reachable and the summary path always
runs: metrics are incremented and critical findings are checked after the
summary is built.  The `priority` argument and `active_cases` bookkeeping are
elided payloads. -/
def processEmergencyCase (env : AgentEnv) (autoAlertThreshold : ℚ)
    (sys : SystemState) (cd : CaseData) : SystemState × CaseSummary :=
  let ai := processEmergency env cd
  let workflow_type := determineWorkflowType cd ai sys.emergency_mode_active
  let wf := executeWorkflow workflow_type
    ({ case_data := cd, ai_results := ai } : FacadeWorkflowData) cd.priority
  let summary := generateCaseSummary ai wf sys
  let sys1 := { sys with
    cases_processed := sys.cases_processed + 1,
    ai_analyses_completed := sys.ai_analyses_completed + 1,
    workflows_executed := sys.workflows_executed + 1 }
  let sys2 := checkCriticalFindings autoAlertThreshold summary.critical_findings sys1
  (sys2, summary)

/-- The dict returned by `activate_emergency_mode`
(emergency_system.py:183-192).  `workflow_id` (a uuid from the disaster
workflow) and `system_adjustments` (a constant dict) are elided. -/
structure ActivationResult where
  status : String
  reason : String
  severity : String
  activated_at : Nat
  estimated_duration_hours : Option Nat
  emergency_config : EmergencyConfig
deriving DecidableEq

/-- `EmergencySystem._generate_emergency_alerts` (emergency_system.py:488-500):
logs and increments `alerts_generated`. -/
def generateEmergencyAlerts (sys : SystemState) : SystemState :=
  { sys with alerts_generated := sys.alerts_generated + 1 }

/-- The `disaster_workflow_data` dict (emergency_system.py:168-173); it
carries no `priority` key. -/
structure DisasterWorkflowData where
  reason : String
  severity : String
  estimated_duration_hours : Option Nat

/-- `EmergencySystem.activate_emergency_mode` (emergency_system.py:140-202).
The source performs no already-active check: it unconditionally overwrites
the mode flag, reason and activation timestamp, runs the disaster-response
workflow, raises the activation alert and returns `status = "activated"`.
Nothing in the body can fail in the embedding (the workflow call catches its
own errors), so the `except` branch is unreachable. -/
def activateEmergencyMode (sys : SystemState) (now : Nat) (reason severity : String)
    (estimated_duration_hours : Option Nat) : SystemState × ActivationResult :=
  let sys1 := { sys with
    emergency_mode_active := true,
    emergency_mode_reason := some reason,
    emergency_mode_activated_at := some now }
  let emergency_config := configureEmergencyMode severity
  let _workflow_results := executeWorkflow "disaster_response"
    ({ reason := reason, severity := severity,
       estimated_duration_hours := estimated_duration_hours } : DisasterWorkflowData) none
  let sys2 := generateEmergencyAlerts sys1
  (sys2,
   { status := "activated", reason := reason, severity := severity,
     activated_at := now, estimated_duration_hours := estimated_duration_hours,
     emergency_config := emergency_config })

/-- The dict returned by `deactivate_emergency_mode`
(emergency_system.py:204-242): either the early `not_active` dict or the
`deactivated` dict.  `cases_processed_during_emergency` depends on the elided
`active_cases` bookkeeping and is elided; the duration is in abstract ticks
rather than hours. -/
structure DeactivationResult where
  status : String
  message : Option String := none
  previous_reason : Option String := none
  activated_at : Option Nat := none
  deactivated_at : Option Nat := none
  duration : Option Nat := none
  resolution_notes : Option String := none
deriving DecidableEq

/-- `EmergencySystem.deactivate_emergency_mode` (emergency_system.py:204-242):
when the mode is not active it returns the
`{"status": "not_active", "message": "Emergency mode is not active"}` dict
without touching any state; otherwise it resets the flags and reports the
duration. -/
def deactivateEmergencyMode (sys : SystemState) (now : Nat) (resolution_notes : String) :
    SystemState × DeactivationResult :=
  if sys.emergency_mode_active = false then
    (sys, { status := "not_active", message := some "Emergency mode is not active" })
  else
    let activated := sys.emergency_mode_activated_at.getD 0
    let sys1 := { sys with
      emergency_mode_active := false,
      emergency_mode_reason := none,
      emergency_mode_activated_at := none }
    (sys1,
     { status := "deactivated",
       previous_reason := sys.emergency_mode_reason,
       activated_at := some activated,
       deactivated_at := some now,
       duration := some (now - activated),
       resolution_notes := some resolution_notes })

/-! ## Spec-side definition for the workflow-selection refinement claim -/

/-- Written from the spec's words (§4.4, "Workflow-selection rule, evaluated
in order, first match wins"), not from the source: (1) incident type
`mass_casualty`; (2) global mode active; (3) triage priority critical or high
and the concurrent same-priority case count exceeds the threshold;
(4) transfer-request flag; (5) occupancy exceeds the threshold; (6) default
`resource_optimization`.  The two undocumented thresholds are the spec's
configurable tunables, taken as parameters. -/
def specWorkflowSelector (priorityCaseThreshold : Nat) (occupancyThreshold : ℚ)
    (cd : CaseData) (ai : AiResults) (emergency_mode_active : Bool) : String :=
  if cd.incident_type = some "mass_casualty" then "mass_casualty"
  else if emergency_mode_active then "disaster_response"
  else if ai.triage_results.priority ∈ ([some "critical", some "high"] : List (Option String))
      ∧ cd.concurrent_priority_cases > priorityCaseThreshold then "resource_optimization"
  else if cd.requires_transfer then "patient_transfer"
  else if cd.facility_capacity_occupancy.getD 0 > occupancyThreshold then "surge_capacity"
  else "resource_optimization"

/-! ## Auxiliary definitions for the proofs -/

/-- Projection of a workflow state onto the fields that routing can observe
(`timeline` length drives the monitor's simulated duration and
`metadata["monitoring"]` drives `_monitoring_router`); the opaque payload is
dropped and the routing-irrelevant `priority` is fixed at its `"medium"`
default.  Every node handler and router commutes with this projection, which
is the formal content of "workflow control flow is independent of the case
payload". -/
def controlView {α : Type} (s : WfState α) : WfState Unit :=
  { workflow_type := s.workflow_type, current_step := s.current_step,
    status := s.status, priority := "medium", patient_data := (),
    timeline := s.timeline, monitoring := s.monitoring }

/-- Observation of a finished workflow state: final step, final status and
number of timeline events. -/
def wfView {γ : Type} (f : WfState γ) : String × String × Nat :=
  (f.current_step, f.status, f.timeline.length)

/-- A provider environment whose triage agent raises — the concrete fault
injection used to decide the error-propagation claim. -/
def failingTriageEnv : AgentEnv :=
  { analyze_emergency := fun _ => .error "Simulated provider failure" }

/-! ## Helper lemmas -/

/-- The triage router can only produce the four mapped labels. -/
lemma triageRouter_mem (s : PipelineState) :
    triageRouter s ∈ (["critical", "urgent", "routine", "monitoring"] : List String) := by
  unfold triageRouter
  dsimp only
  split_ifs <;> simp

/-- A missing `priority` key falls into the `.get` default `"routine"`. -/
lemma triageRouter_none (s : PipelineState) (h : s.triage_results.priority = none) :
    triageRouter s = "routine" := by
  unfold triageRouter
  rw [h]
  rfl

/-- A present but unrecognized `priority` value falls through every branch to
`"monitoring"`. -/
lemma triageRouter_unrecognized (s : PipelineState) (p : String)
    (hp : s.triage_results.priority = some p)
    (hmem : p ∉ (["critical", "life_threatening", "urgent", "high", "routine",
      "normal"] : List String)) :
    triageRouter s = "monitoring" := by
  unfold triageRouter
  rw [hp]
  simp only [Option.getD_some]
  simp only [List.mem_cons, List.mem_singleton, List.not_mem_nil] at hmem
  push_neg at hmem
  obtain ⟨h1, h2, h3, h4, h5, h6⟩ := hmem
  simp [h1, h2, h3, h4, h5, h6]

/-- A successful coordination node always reports `"completed"`. -/
lemma emergencyCoordinationNode_status (env : AgentEnv) (s f : PipelineState)
    (h : emergencyCoordinationNode env s = .ok f) : f.workflow_status = "completed" := by
  unfold emergencyCoordinationNode at h
  split at h
  · exact absurd h (by simp)
  · cases h
    rfl

/-- Status of a successful run of the tail chain from
`resource_optimization`. -/
lemma runFromResource_status (env : AgentEnv) (s f : PipelineState)
    (h : runFromResource env s = .ok f) : f.workflow_status = "completed" :=
  emergencyCoordinationNode_status env _ f h

/-- Status of a successful run of the chain from `clinical_decision`. -/
lemma runFromClinical_status (env : AgentEnv) (s f : PipelineState)
    (h : runFromClinical env s = .ok f) : f.workflow_status = "completed" := by
  unfold runFromClinical at h
  split at h
  · exact absurd h (by simp)
  · exact runFromResource_status env _ f h

/-- Status of a successful run of the chain from `imaging_analysis`. -/
lemma runFromImaging_status (env : AgentEnv) (s f : PipelineState)
    (h : runFromImaging env s = .ok f) : f.workflow_status = "completed" := by
  unfold runFromImaging at h
  split at h
  · exact absurd h (by simp)
  · exact runFromClinical_status env _ f h

/-- Every successful pipeline traversal ends `"completed"` or
`"monitoring"`. -/
lemma pipelineInvoke_status (env : AgentEnv) (s0 f : PipelineState)
    (h : pipelineInvoke env s0 = .ok f) :
    f.workflow_status = "completed" ∨ f.workflow_status = "monitoring" := by
  unfold pipelineInvoke at h
  split at h
  · exact absurd h (by simp)
  · split at h
    · exact absurd h (by simp)
    · split at h
      · exact Or.inl (runFromImaging_status env _ f h)
      · exact Or.inl (runFromClinical_status env _ f h)
      · cases h
        exact Or.inr rfl
      · exact absurd h (by simp)
      · exact absurd h (by simp)

/-- `process_emergency` reports `"completed"`, `"monitoring"` or (when a
provider raised) `"error"`. -/
lemma processEmergency_status (env : AgentEnv) (cd : CaseData) :
    (processEmergency env cd).status ∈
      (["completed", "monitoring", "error"] : List String) := by
  unfold processEmergency
  split
  · rename_i f hf
    rcases pipelineInvoke_status env _ f hf with h | h <;> simp [h]
  · simp

/-- Mass-casualty node handlers commute with the control-flow projection. -/
lemma massCasualtyHandler_controlView {α : Type} (n : String) (s : WfState α) :
    controlView (massCasualtyHandler n s) = massCasualtyHandler n (controlView s) := by
  unfold massCasualtyHandler
  split <;> rfl

/-- Mass-casualty edges depend only on the control-flow projection. -/
lemma massCasualtyNext_controlView {α : Type} (n : String) (s : WfState α) :
    massCasualtyNext n s = massCasualtyNext n (controlView s) := by
  unfold massCasualtyNext
  split <;> rfl

/-- Disaster-response node handlers commute with the projection. -/
lemma disasterHandler_controlView {α : Type} (n : String) (s : WfState α) :
    controlView (disasterHandler n s) = disasterHandler n (controlView s) := by
  unfold disasterHandler
  split <;> rfl

/-- Disaster-response edges depend only on the projection. -/
lemma disasterNext_controlView {α : Type} (n : String) (s : WfState α) :
    disasterNext n s = disasterNext n (controlView s) := by
  unfold disasterNext
  split <;> rfl

/-- Resource-optimization node handlers commute with the projection. -/
lemma resourceOptHandler_controlView {α : Type} (n : String) (s : WfState α) :
    controlView (resourceOptHandler n s) = resourceOptHandler n (controlView s) := by
  unfold resourceOptHandler
  split <;> rfl

/-- Resource-optimization edges depend only on the projection. -/
lemma resourceOptNext_controlView {α : Type} (n : String) (s : WfState α) :
    resourceOptNext n s = resourceOptNext n (controlView s) := by
  unfold resourceOptNext
  split <;> rfl

/-- Patient-transfer node handlers commute with the projection. -/
lemma transferHandler_controlView {α : Type} (n : String) (s : WfState α) :
    controlView (transferHandler n s) = transferHandler n (controlView s) := by
  unfold transferHandler
  split <;> rfl

/-- Patient-transfer edges depend only on the projection. -/
lemma transferNext_controlView {α : Type} (n : String) (s : WfState α) :
    transferNext n s = transferNext n (controlView s) := by
  unfold transferNext
  split <;> rfl

/-- Surge-capacity node handlers commute with the projection. -/
lemma surgeHandler_controlView {α : Type} (n : String) (s : WfState α) :
    controlView (surgeHandler n s) = surgeHandler n (controlView s) := by
  unfold surgeHandler
  split <;> rfl

/-- Surge-capacity edges depend only on the projection. -/
lemma surgeNext_controlView {α : Type} (n : String) (s : WfState α) :
    surgeNext n s = surgeNext n (controlView s) := by
  unfold surgeNext
  split <;> rfl

/-- Graph traversal commutes with the control-flow projection whenever the
handlers and edges do: the traversal of a payload-carrying state simulates
the traversal of its projection step by step. -/
lemma runGraph_controlView {α : Type}
    (handler : String → WfState α → WfState α)
    (handlerU : String → WfState Unit → WfState Unit)
    (next : String → WfState α → Option NodeTarget)
    (nextU : String → WfState Unit → Option NodeTarget)
    (hH : ∀ n s, controlView (handler n s) = handlerU n (controlView s))
    (hN : ∀ n s, next n s = nextU n (controlView s)) :
    ∀ (fuel : Nat) (n : String) (s : WfState α),
      Except.map controlView (runGraph handler next fuel n s)
        = runGraph handlerU nextU fuel n (controlView s) := by
  intro fuel
  induction fuel with
  | zero => intro n s; rfl
  | succ fuel ih =>
    intro n s
    simp only [runGraph]
    rw [← hH, ← hN]
    cases h : next n (handler n s) with
    | none => rfl
    | some t =>
      cases t with
      | terminal => rfl
      | node m => exact ih m (handler n s)

/-- The mass-casualty traversal commutes with the projection. -/
lemma runWorkflowGraph_mc_controlView {α : Type} (s : WfState α) :
    Except.map controlView (runWorkflowGraph "mass_casualty" s)
      = runWorkflowGraph "mass_casualty" (controlView s) := by
  unfold runWorkflowGraph
  exact runGraph_controlView _ _ _ _ massCasualtyHandler_controlView
    massCasualtyNext_controlView 25 "incident_assessment" s

/-- Every registered traversal commutes with the projection. -/
lemma runWorkflowGraph_controlView {α : Type} (wt : String) (s : WfState α) :
    Except.map controlView (runWorkflowGraph wt s) = runWorkflowGraph wt (controlView s) := by
  unfold runWorkflowGraph
  split
  · exact runGraph_controlView _ _ _ _ massCasualtyHandler_controlView
      massCasualtyNext_controlView 25 _ s
  · exact runGraph_controlView _ _ _ _ disasterHandler_controlView
      disasterNext_controlView 25 _ s
  · exact runGraph_controlView _ _ _ _ resourceOptHandler_controlView
      resourceOptNext_controlView 25 _ s
  · exact runGraph_controlView _ _ _ _ transferHandler_controlView
      transferNext_controlView 25 _ s
  · exact runGraph_controlView _ _ _ _ surgeHandler_controlView
      surgeNext_controlView 25 _ s
  · rfl

/-- `wfView` is insensitive to the projection, so a simulated run determines
the observed outcome of the original run. -/
lemma except_map_view_proj {α : Type} (r : Except String (WfState α))
    (rU : Except String (WfState Unit))
    (h : Except.map controlView r = rU) :
    r.toOption.map wfView = rU.toOption.map wfView := by
  cases r with
  | error e => cases h; rfl
  | ok f => cases h; rfl

set_option maxHeartbeats 1000000 in
/-- The mass-casualty graph run on the unit payload: 4 chain nodes, 13
monitoring passes and the resolution node — 18 node executions in all, within
the recursion limit of 25 — reaching `incident_resolved` with status
`"resolved"` and 18 timeline events. -/
lemma mc_run_closed :
    ((runWorkflowGraph "mass_casualty"
      ({ workflow_type := "mass_casualty", patient_data := () } : WfState Unit)).toOption.map
        wfView)
      = some ("incident_resolved", "resolved", 18) := by rfl

/-- `execute_workflow`'s observable outcome is independent of the initial
payload and priority. -/
lemma executeWorkflow_controlView {α : Type} (wt : String) (pd : α) (pr : Option String) :
    executeWorkflow wt pd pr = executeWorkflow wt () none := by
  unfold executeWorkflow
  by_cases hw : wt ∈ workflowNames
  · rw [if_pos hw, if_pos hw]
    have h : Except.map controlView
        (runWorkflowGraph wt
          ({ workflow_type := wt, patient_data := pd,
             priority := pr.getD "medium" } : WfState α))
        = runWorkflowGraph wt
          ({ workflow_type := wt, patient_data := (),
             priority := (none : Option String).getD "medium" } : WfState Unit) :=
      runWorkflowGraph_controlView wt _
    dsimp only
    cases hr : runWorkflowGraph wt
        ({ workflow_type := wt, patient_data := pd, priority := pr.getD "medium" } : WfState α) with
    | error e =>
      rw [hr] at h
      rw [← h]
      rfl
    | ok f =>
      rw [hr] at h
      rw [← h]
      rfl
  · rw [if_neg hw, if_neg hw]

set_option maxHeartbeats 1000000 in
/-- The mass-casualty workflow completes on the unit payload. -/
lemma executeWorkflow_mc_ok : (executeWorkflow "mass_casualty" () none).isOk = true := by rfl

/-- The disaster-response workflow completes on the unit payload. -/
lemma executeWorkflow_dr_ok : (executeWorkflow "disaster_response" () none).isOk = true := by rfl

/-- The resource-optimization workflow completes on the unit payload. -/
lemma executeWorkflow_ro_ok :
    (executeWorkflow "resource_optimization" () none).isOk = true := by rfl

/-- The patient-transfer workflow completes on the unit payload. -/
lemma executeWorkflow_pt_ok : (executeWorkflow "patient_transfer" () none).isOk = true := by rfl

/-- The surge-capacity workflow completes on the unit payload. -/
lemma executeWorkflow_sc_ok : (executeWorkflow "surge_capacity" () none).isOk = true := by rfl

/-- Every registered workflow type executes successfully on every payload. -/
lemma executeWorkflow_ok_of_mem (wt : String) (hwt : wt ∈ workflowNames)
    {α : Type} (pd : α) (pr : Option String) :
    (executeWorkflow wt pd pr).isOk = true := by
  rw [executeWorkflow_controlView]
  fin_cases hwt
  · exact executeWorkflow_mc_ok
  · exact executeWorkflow_dr_ok
  · exact executeWorkflow_ro_ok
  · exact executeWorkflow_pt_ok
  · exact executeWorkflow_sc_ok

/-- A successful execution did not take the unknown-workflow-type branch. -/
lemma isUnknownType_false_of_isOk (r : WorkflowExecResult) (h : r.isOk = true) :
    r.isUnknownType = false := by
  cases r with
  | ok s => rfl
  | err m wt => exact absurd h (by simp [WorkflowExecResult.isOk])

/-- The alert loop of `_check_critical_findings` adds exactly one alert per
finding whose confidence reaches the threshold. -/
lemma checkCriticalFindings_count (threshold : ℚ) :
    ∀ (findings : List Finding) (sys : SystemState),
    (checkCriticalFindings threshold findings sys).alerts_generated
      = sys.alerts_generated
        + findings.countP (fun f => threshold ≤ f.confidence) := by
  intro findings
  induction findings with
  | nil => intro sys; rfl
  | cons f fs ih =>
    intro sys
    simp only [checkCriticalFindings, List.foldl_cons] at ih ⊢
    by_cases hf : threshold ≤ f.confidence
    · rw [if_pos hf, ih, List.countP_cons_of_pos _ _ (by simpa using hf)]
      simp [generateCriticalAlert]
      omega
    · rw [if_neg hf, ih, List.countP_cons_of_neg _ _ (by simpa using hf)]

/-- The workflow selector always answers with a registered workflow name. -/
lemma determineWorkflowType_mem (cd : CaseData) (ai : AiResults) (act : Bool) :
    determineWorkflowType cd ai act ∈ workflowNames := by
  unfold determineWorkflowType workflowNames
  split_ifs <;> simp

end ERAIF

namespace ERAIF

/-! ## Claim theorems -/

/-- C1 (counterexample): on a pipeline state whose triage result has no
`priority` key at all, the router returns `"routine"`, not `"monitoring"` —
the `.get("priority", "routine")` default defeats the fail-safe the claim
asserts for the missing case. -/
theorem triage_router_missing_priority_cex :
    triageRouter {} = "routine" ∧ ("routine" : String) ≠ "monitoring" :=
  ⟨rfl, by decide⟩

/-- C1 (amended): the triage router always returns one of the four labels
`critical`, `urgent`, `routine`, `monitoring`; a priority that is *present
but unrecognized* maps to `"monitoring"`, while a *missing* priority defaults
to `"routine"`. -/
theorem triage_router_label_and_defaults (s : PipelineState) :
    triageRouter s ∈ (["critical", "urgent", "routine", "monitoring"] : List String)
    ∧ (s.triage_results.priority = none → triageRouter s = "routine")
    ∧ (∀ p : String, s.triage_results.priority = some p →
        p ∉ (["critical", "life_threatening", "urgent", "high", "routine",
          "normal"] : List String) → triageRouter s = "monitoring") :=
  ⟨triageRouter_mem s, triageRouter_none s,
   fun p hp hmem => triageRouter_unrecognized s p hp hmem⟩

/-- C1 (witness): the amended theorem applied at a state with the
unrecognized priority `"unknown"` (giving `"monitoring"`) and at a state with
no priority (giving `"routine"`). -/
theorem triage_router_label_and_defaults_witness :
    triageRouter { triage_results := { priority := some "unknown" } } = "monitoring"
    ∧ triageRouter { triage_results := { priority := none } } = "routine" :=
  ⟨(triage_router_label_and_defaults
      { triage_results := { priority := some "unknown" } }).2.2 "unknown" rfl (by decide),
   (triage_router_label_and_defaults { triage_results := { priority := none } }).2.1 rfl⟩

/-- C2: (1) for every provider environment and case data, `process_emergency`
terminates with status `completed`, `monitoring` or `error`; (2) for every
payload, the mass-casualty traversal exits its `ongoing_monitoring →
ongoing_monitoring` cycle after finitely many passes — it reaches
`incident_resolved` with status `"resolved"` after exactly 18 node executions
(4 chain nodes, 13 monitoring passes, 1 resolution), inside the recursion
limit of 25; (3) every monitoring pass appends exactly one timeline event;
(4) the monitoring node reports `"winding_down"` exactly when the simulated
duration of 15 minutes per timeline entry has reached 240 minutes. -/
theorem process_case_terminates :
    (∀ (env : AgentEnv) (cd : CaseData),
      (processEmergency env cd).status ∈ (["completed", "monitoring", "error"] : List String))
    ∧ (∀ (α : Type) (pd : α) (pr : Option String),
        ((runWorkflowGraph "mass_casualty"
          ({ workflow_type := "mass_casualty", patient_data := pd,
             priority := pr.getD "medium" } : WfState α)).toOption.map wfView)
          = some ("incident_resolved", "resolved", 18))
    ∧ (∀ (α : Type) (s : WfState α),
        (monitorIncidentNode s).timeline.length = s.timeline.length + 1)
    ∧ (∀ (α : Type) (s : WfState α),
        (monitorIncidentNode s).monitoring = some
          { incident_duration_minutes := s.timeline.length * 15,
            status := if s.timeline.length * 15 < 240 then "ongoing"
              else "winding_down" }) := by
  refine ⟨processEmergency_status, ?_, ?_, ?_⟩
  · intro α pd pr
    rw [except_map_view_proj _ _ (runWorkflowGraph_mc_controlView _)]
    exact mc_run_closed
  · intro α s
    simp [monitorIncidentNode, addTimelineEvent]
  · intro α s
    rfl

/-- C3 (counterexample): activating for `"flood"` (critical) and then for
`"quake"` (high) makes the second call return `"activated"` — not
`"conflict"` — and the stored reason after it is `"quake"`, not the
`"flood"` the claim requires. -/
theorem second_activation_no_conflict_cex :
    (activateEmergencyMode (activateEmergencyMode {} 0 "flood" "critical" none).1
      1 "quake" "high" none).2.status = "activated"
    ∧ (activateEmergencyMode (activateEmergencyMode {} 0 "flood" "critical" none).1
      1 "quake" "high" none).2.status ≠ "conflict"
    ∧ (activateEmergencyMode (activateEmergencyMode {} 0 "flood" "critical" none).1
      1 "quake" "high" none).1.emergency_mode_reason = some "quake" :=
  ⟨rfl, by decide, rfl⟩

/-- C3 (amended): `activate_emergency_mode` performs no already-active check:
every call — including one arriving while the mode is already active —
returns `"activated"` and overwrites the mode flag, reason and activation
timestamp with its own values (last writer wins); no conflict result
exists. -/
theorem activate_emergency_overwrites (sys : SystemState) (now : Nat)
    (reason severity : String) (dur : Option Nat) :
    (activateEmergencyMode sys now reason severity dur).2.status = "activated"
    ∧ (activateEmergencyMode sys now reason severity dur).1.emergency_mode_active = true
    ∧ (activateEmergencyMode sys now reason severity dur).1.emergency_mode_reason
      = some reason
    ∧ (activateEmergencyMode sys now reason severity dur).1.emergency_mode_activated_at
      = some now :=
  ⟨rfl, rfl, rfl, rfl⟩

set_option maxHeartbeats 1000000 in
/-- C4 (counterexample): with a triage provider that raises, the pipeline
itself reports the error, yet the case summary handed to the caller has
status `"completed"` — not the `"error"` the claim requires — and carries no
stage error. -/
theorem stage_failure_error_swallowed_cex :
    (processEmergencyCase failingTriageEnv defaultAutoAlertThreshold {} {}).2.status
      = "completed"
    ∧ ("completed" : String) ≠ "error"
    ∧ (processEmergency failingTriageEnv {}).status = "error"
    ∧ (processEmergency failingTriageEnv {}).error = some "Simulated provider failure" :=
  ⟨rfl, by decide, rfl, rfl⟩

/-- C4 (amended): a stage/provider failure is caught inside the AI pipeline,
which returns a structured `{"status": "error", "error": e}` record — the
error is not swallowed at that layer — but the facade's case summary
nevertheless always reports `status = "completed"`, dropping the stage
error; a summary with status `"error"` would require an exception escaping
inside `process_emergency_case` itself, which the layered `try/except`
structure prevents. -/
theorem stage_failure_summary_completed :
    (∀ (env : AgentEnv) (cd : CaseData) (e : String),
      pipelineInvoke env { emergency_data := cd } = .error e →
        processEmergency env cd = { session_id := "", status := "error", error := some e })
    ∧ (∀ (env : AgentEnv) (th : ℚ) (sys : SystemState) (cd : CaseData),
        (processEmergencyCase env th sys cd).2.status = "completed") := by
  constructor
  · intro env cd e h
    unfold processEmergency
    rw [h]
  · intro env th sys cd
    rfl

/-- C4 (witness): the amended theorem applied to the concrete failing triage
provider, whose pipeline invocation errors with
`"Simulated provider failure"`. -/
theorem stage_failure_summary_completed_witness :
    processEmergency failingTriageEnv {}
      = { session_id := "", status := "error", error := some "Simulated provider failure" }
    ∧ (processEmergencyCase failingTriageEnv (1/2) {} {}).2.status = "completed" :=
  ⟨stage_failure_summary_completed.1 failingTriageEnv {} "Simulated provider failure" rfl,
   stage_failure_summary_completed.2 failingTriageEnv (1/2) {} {}⟩

/-- C5: the workflow selector equals, rule for rule, the selector written out
of the spec's six ordered first-match-wins rules (with the source's
thresholds 5 concurrent priority cases and 85% occupancy); in particular
every case whose `incident_type` is `"mass_casualty"` selects the
mass-casualty workflow regardless of mode, priority or capacity. -/
theorem workflow_selection_order :
    (∀ (cd : CaseData) (ai : AiResults) (act : Bool),
      determineWorkflowType cd ai act = specWorkflowSelector 5 85 cd ai act)
    ∧ (∀ (cd : CaseData) (ai : AiResults) (act : Bool),
      determineWorkflowType { cd with incident_type := some "mass_casualty" } ai act
        = "mass_casualty") :=
  ⟨fun _ _ _ => rfl, fun _ _ _ => rfl⟩

/-- C6: (1) the alert check adds exactly one alert per finding whose
confidence reaches the threshold and none for findings below it; (2) end to
end, processing a case increments `alerts_generated` by exactly the number of
extracted critical findings at or above the threshold; (3) alert emission
never alters the case summary — the summary returned to the caller is
identical for every threshold (alerting is fire-and-continue, decided after
the summary is built). -/
theorem critical_findings_alert_count :
    (∀ (threshold : ℚ) (findings : List Finding) (sys : SystemState),
      (checkCriticalFindings threshold findings sys).alerts_generated
        = sys.alerts_generated + findings.countP (fun f => threshold ≤ f.confidence))
    ∧ (∀ (env : AgentEnv) (th : ℚ) (sys : SystemState) (cd : CaseData),
      (processEmergencyCase env th sys cd).1.alerts_generated
        = sys.alerts_generated
          + (extractCriticalFindings (processEmergency env cd)).countP
              (fun f => th ≤ f.confidence))
    ∧ (∀ (env : AgentEnv) (th th' : ℚ) (sys : SystemState) (cd : CaseData),
      (processEmergencyCase env th sys cd).2 = (processEmergencyCase env th' sys cd).2) := by
  refine ⟨checkCriticalFindings_count, ?_, ?_⟩
  · intro env th sys cd
    unfold processEmergencyCase
    dsimp only
    rw [checkCriticalFindings_count]
    rfl
  · intro env th th' sys cd
    rfl

/-- C7 (counterexample): deactivating on the initial (NORMAL) system returns
the status string `"not_active"`, not the `"already_normal"` the claim
names (that string exists only in the sibling `eraif_core.py` module, not in
`EmergencySystem`). -/
theorem deactivate_when_normal_status_cex :
    (deactivateEmergencyMode {} 5 "").2.status = "not_active"
    ∧ ("not_active" : String) ≠ "already_normal"
    ∧ (deactivateEmergencyMode {} 5 "").1 = ({} : SystemState) :=
  ⟨rfl, by decide, rfl⟩

/-- C7 (amended): calling `deactivate_emergency_mode` when emergency mode is
not active returns a structured result with status `"not_active"` (and the
message "Emergency mode is not active") and changes no system state — a
no-op, not an error. -/
theorem deactivate_when_normal_noop (sys : SystemState) (now : Nat) (notes : String)
    (h : sys.emergency_mode_active = false) :
    (deactivateEmergencyMode sys now notes).1 = sys
    ∧ (deactivateEmergencyMode sys now notes).2.status = "not_active"
    ∧ (deactivateEmergencyMode sys now notes).2.message
      = some "Emergency mode is not active" := by
  unfold deactivateEmergencyMode
  rw [h]
  exact ⟨rfl, rfl, rfl⟩

/-- C7 (witness): the amended theorem applied to the initial system, which is
not in emergency mode. -/
theorem deactivate_when_normal_noop_witness :
    (deactivateEmergencyMode {} 3 "notes").1 = ({} : SystemState)
    ∧ (deactivateEmergencyMode {} 3 "notes").2.status = "not_active" :=
  ⟨(deactivate_when_normal_noop {} 3 "notes" rfl).1,
   (deactivate_when_normal_noop {} 3 "notes" rfl).2.1⟩

/-- C8 (counterexample): the severities below critical do not scale the
snapshot proportionally — `"medium"` and `"low"` produce *identical*
snapshots, and `"high"` already gets the same `"HIGH"` priority threshold as
`"critical"`; the snapshot is a two-level scheme, not a proportional
scale. -/
theorem emergency_config_not_proportional_cex :
    configureEmergencyMode "medium" = configureEmergencyMode "low"
    ∧ (configureEmergencyMode "high").priority_threshold
      = (configureEmergencyMode "critical").priority_threshold :=
  ⟨rfl, rfl⟩

/-- C8 (amended): activating with severity `"critical"` installs the snapshot
`priority_threshold = "HIGH"`, `ai_confidence_threshold = 0.6` (strictly
below the `0.7` used for every other severity), `batch_processing = true`,
`timeout_reduced = true` (boolean flags — the source stores no numeric batch
size or timeout, so nothing is numerically halved) and
`compression_enabled = true`; severity `"high"` also maps to
`priority_threshold = "HIGH"`, and every severity outside
`{"high", "critical"}` maps to `priority_threshold = "MEDIUM"` with
threshold `0.7` — a two-level scheme rather than proportional scaling. -/
theorem emergency_config_snapshot :
    configureEmergencyMode "critical"
      = { priority_threshold := "HIGH", batch_processing := true,
          compression_enabled := true, timeout_reduced := true,
          ai_confidence_threshold := 6/10 }
    ∧ (configureEmergencyMode "high").priority_threshold = "HIGH"
    ∧ (configureEmergencyMode "critical").ai_confidence_threshold
      < (configureEmergencyMode "high").ai_confidence_threshold
    ∧ (∀ severity : String, severity ≠ "critical" →
        (configureEmergencyMode severity).ai_confidence_threshold = 7/10)
    ∧ (∀ severity : String, severity ∉ (["high", "critical"] : List String) →
        (configureEmergencyMode severity).priority_threshold = "MEDIUM")
    ∧ (∀ severity : String, (configureEmergencyMode severity).compression_enabled = true) := by
  have h1 : (configureEmergencyMode "critical").ai_confidence_threshold = 6/10 := rfl
  have h2 : (configureEmergencyMode "high").ai_confidence_threshold = 7/10 := rfl
  refine ⟨rfl, rfl, by rw [h1, h2]; norm_num, ?_, ?_, fun _ => rfl⟩
  · intro severity h
    simp [configureEmergencyMode, h]
  · intro severity h
    simp [configureEmergencyMode, h]

/-- C8 (witness): the amended theorem applied at severities `"high"` (same
`"HIGH"` threshold as critical, confidence `0.7`) and `"medium"` (mapped to
`"MEDIUM"`). -/
theorem emergency_config_snapshot_witness :
    (configureEmergencyMode "high").ai_confidence_threshold = 7/10
    ∧ (configureEmergencyMode "medium").priority_threshold = "MEDIUM"
    ∧ (configureEmergencyMode "critical").ai_confidence_threshold
      < (configureEmergencyMode "high").ai_confidence_threshold :=
  ⟨emergency_config_snapshot.2.2.2.1 "high" (by decide),
   emergency_config_snapshot.2.2.2.2.1 "medium" (by decide),
   emergency_config_snapshot.2.2.1⟩

/-- C9: the triage router is a pure function of the triage result: any two
pipeline states with the same `triage_results` — whatever their other fields —
yield the same label.  In the embedding the router's type
`PipelineState → String` makes non-mutation structural: it returns only a
label and no state. -/
theorem triage_router_deterministic (s1 s2 : PipelineState)
    (h : s1.triage_results = s2.triage_results) :
    triageRouter s1 = triageRouter s2 := by
  unfold triageRouter
  rw [h]

/-- C9 (witness): the theorem applied to two states that differ in every
field except the triage result. -/
theorem triage_router_deterministic_witness :
    triageRouter
      { current_step := "a", workflow_status := "pending",
        triage_results := { priority := some "critical" } }
    = triageRouter
      { current_step := "b", workflow_status := "completed",
        triage_results := { priority := some "critical" } } :=
  triage_router_deterministic _ _ rfl

/-- C10: the workflow selector's output is always one of the five keys of the
workflows registry, and executing the selected workflow never takes the
unknown-workflow-type error branch of `execute_workflow` — indeed the
execution always returns the success dict. -/
theorem workflow_type_always_registered :
    (∀ (cd : CaseData) (ai : AiResults) (act : Bool),
      determineWorkflowType cd ai act ∈ workflowNames)
    ∧ (∀ (α : Type) (cd : CaseData) (ai : AiResults) (act : Bool) (pd : α)
        (pr : Option String),
      (executeWorkflow (determineWorkflowType cd ai act) pd pr).isOk = true
      ∧ (executeWorkflow (determineWorkflowType cd ai act) pd pr).isUnknownType = false) := by
  refine ⟨determineWorkflowType_mem, ?_⟩
  intro α cd ai act pd pr
  have hok := executeWorkflow_ok_of_mem _ (determineWorkflowType_mem cd ai act) pd pr
  exact ⟨hok, isUnknownType_false_of_isOk _ hok⟩

end ERAIF
